import Mathlib

/-!
Verification of the log-shipping buffer `loki_logger_handler`
(file `loki_logger_handler/loki_logger_handler.py`).

The Python code is shallowly embedded: dictionaries become insertion-ordered
association lists (`List (String × String)`), the FIFO queue becomes a list
(push at the back, pop at the front), mutation becomes explicit state passing
on `HandlerState`, and a raised exception is an `Option PyError` component
returned next to the mutated state (Python object state survives a raise, so
the partially mutated state is returned together with the error).
-/

/-- Exceptions that the embedded code can raise. -/
inductive PyError
  | attributeError
  | formatError
  deriving DecidableEq, Repr

/-- Payload of a log line: either raw text or a structured flat mapping,
mirroring the `str` / `dict` cases of `LogLine.size`. -/
inductive LineVal
  | str (s : String)
  | dict (d : List (String × String))
  deriving DecidableEq, Repr

/-- Hexadecimal digit character, lower case, as produced by Python's
`json.dumps` unicode escapes. -/
def hexDigit (n : Nat) : Char :=
  if n < 10 then Char.ofNat (48 + n) else Char.ofNat (97 + (n - 10))

/-- Four-digit hexadecimal rendering used in `\uXXXX` escapes. -/
def hex4 (n : Nat) : String :=
  String.mk [hexDigit (n / 4096 % 16), hexDigit (n / 256 % 16),
             hexDigit (n / 16 % 16), hexDigit (n % 16)]

/-- Escape of one character as in `json.dumps` with its default
`ensure_ascii=True`: printable ASCII passes through, the two-character
escapes cover quote, backslash and common control characters, every other
control or non-ASCII character becomes `\uXXXX` (a surrogate pair beyond
the basic plane). -/
def jsonEscapeChar (c : Char) : String :=
  if c = Char.ofNat 34 then "\\\""
  else if c = Char.ofNat 92 then "\\\\"
  else if c = Char.ofNat 10 then "\\n"
  else if c = Char.ofNat 13 then "\\r"
  else if c = Char.ofNat 9 then "\\t"
  else if c = Char.ofNat 8 then "\\b"
  else if c = Char.ofNat 12 then "\\f"
  else if 32 ≤ c.toNat ∧ c.toNat ≤ 126 then String.singleton c
  else if c.toNat < 65536 then "\\u" ++ hex4 c.toNat
  else
    let n := c.toNat - 65536
    "\\u" ++ hex4 (55296 + n / 1024) ++ "\\u" ++ hex4 (56320 + n % 1024)

/-- JSON string literal: quotes around the escaped characters. -/
def jsonQuote (s : String) : String :=
  "\"" ++ String.join (s.data.map jsonEscapeChar) ++ "\""

/-- Embedding of `json.dumps` on a flat string-to-string dictionary, with the
default separators `", "` and `": "`. -/
def jsonDumps (d : List (String × String)) : String :=
  "\x7b" ++ String.intercalate ", " (d.map (fun p => jsonQuote p.1 ++ ": " ++ jsonQuote p.2)) ++ "\x7d"

/-- Embedding of `LogLine._key_from_labels`: sort the label values
lexicographically (Python `sorted`) and join them with `"_"`. -/
def key_from_labels (labels : List (String × String)) : String :=
  String.intercalate "_" (List.insertionSort (fun a b : String => a ≤ b) (labels.map Prod.snd))

/-- Embedding of the `LogLine` class: labels, the key derived from them, and
the payload line. -/
structure LogLine where
  labels : List (String × String)
  key : String
  line : LineVal
  deriving DecidableEq, Repr

/-- Embedding of `LogLine.__init__`, which derives `key` from `labels`. -/
def LogLine.make (labels : List (String × String)) (line : LineVal) : LogLine :=
  ⟨labels, key_from_labels labels, line⟩

/-- Embedding of `LogLine.size`: UTF-8 byte length of the JSON-encoded labels
plus the byte length of the line (its JSON encoding when structured). -/
def LogLine.size (log : LogLine) : Nat :=
  (jsonDumps log.labels).utf8ByteSize +
    (match log.line with
     | .str s => s.utf8ByteSize
     | .dict d => (jsonDumps d).utf8ByteSize)

/-- Embedding of a Python dictionary item assignment `d[k] = v`: an existing
key keeps its position and gets the new value, a fresh key is appended. -/
def dictInsert : List (String × String) → String → String → List (String × String)
  | [], k, v => [(k, v)]
  | (k', v') :: rest, k, v =>
    if k' = k then (k, v) :: rest else (k', v') :: dictInsert rest k v

/-- Embedding of the label-building loop of `LokiLoggerHandler._put`:
copy the base labels, then for each configured label key present in the
formatted record, override/add that field's value. -/
def buildLabels (base : List (String × String)) (label_keys : List String)
    (log_record : List (String × String)) : List (String × String) :=
  label_keys.foldl
    (fun lbls key =>
      match log_record.lookup key with
      | some v => dictInsert lbls key v
      | none => lbls)
    base

/-- Mutable state of a `LokiLoggerHandler` instance. The two size-counter
fields mirror the two distinct Python attribute names that appear in the
source: `_current_stream_size` is created in `__init__` (and reset in
`_send`), while the differently spelled `current_stream_size` that `_put`
increments is never created, which the embedding records as an `Option`
that starts out `none`. -/
structure HandlerState where
  labels : List (String × String)
  label_keys : List String
  max_stream_size : Nat
  buffer : List LogLine
  underscore_current_stream_size : Nat
  current_stream_size : Option Nat
  force_send : Bool
  deriving DecidableEq, Repr

/-- Embedding of `LokiLoggerHandler.__init__` for the fields the core uses. -/
def initState (labels : List (String × String)) (label_keys : List String)
    (max_stream_size : Nat) : HandlerState :=
  { labels := labels
    label_keys := label_keys
    max_stream_size := max_stream_size
    buffer := []
    underscore_current_stream_size := 0
    current_stream_size := none
    force_send := false }

/-- Embedding of `LokiLoggerHandler._put`. Statements are modelled in source
order: build the labels, construct the `LogLine`, compute its size, push onto
the buffer, then execute `self.current_stream_size += log_size` — reading an
attribute that `__init__` never created, hence an `AttributeError` once the
push has already happened — and finally (when no exception was raised)
compare `self._current_stream_size` against `max_stream_size` and set the
force-send flag. -/
def _put (st : HandlerState) (log_record : List (String × String)) :
    HandlerState × Option PyError :=
  let labels := buildLabels st.labels st.label_keys log_record
  let log_line := LogLine.make labels (LineVal.dict log_record)
  let log_size := log_line.size
  let st := { st with buffer := st.buffer ++ [log_line] }
  match st.current_stream_size with
  | none => (st, some PyError.attributeError)
  | some v =>
    let st := { st with current_stream_size := some (v + log_size) }
    if 0 < st.max_stream_size ∧ st.max_stream_size ≤ st.underscore_current_stream_size
    then ({ st with force_send := true }, none)
    else (st, none)

/-- Embedding of `LokiLoggerHandler.emit`: the formatter's outcome is the
`Except` argument (the formatter is an external collaborator that may raise);
the whole body sits in `try ... except Exception: pass`, so no error ever
reaches the caller, and the state is whatever the body left behind. -/
def emit (st : HandlerState) (formatted : Except PyError (List (String × String))) :
    HandlerState × Option PyError :=
  match formatted with
  | .error _ => (st, none)
  | .ok log_record => ((_put st log_record).1, none)

/-- Modelled from the spec: the `Stream` class (file `stream.py`, not part of
the core source) — a StreamAccumulator "owns a LabelSet and an ordered
sequence of payload lines (insertion order preserved)". -/
structure LokiStream where
  labels : List (String × String)
  values : List LineVal
  deriving DecidableEq, Repr

/-- Modelled from the spec: `Stream.append_value` appends one payload line,
"preserving arrival order". -/
def LokiStream.append_value (s : LokiStream) (v : LineVal) : LokiStream :=
  { s with values := s.values ++ [v] }

/-- One iteration of the drain loop of `LokiLoggerHandler._send` on the
`temp_streams` dictionary (an insertion-ordered association list): when the
entry's key is absent, a fresh stream seeded with the entry's labels is
inserted, and in every case the entry's line is appended to the stream at
that key. -/
def addToStreams : List (String × LokiStream) → LogLine → List (String × LokiStream)
  | [], log => [(log.key, (LokiStream.mk log.labels []).append_value log.line)]
  | (k, s) :: rest, log =>
    if k = log.key then (k, s.append_value log.line) :: rest
    else (k, s) :: addToStreams rest log

/-- Drain loop of `LokiLoggerHandler._send`: dequeue every buffered entry in
FIFO order, grouping into `temp_streams`. -/
def drainGroup (buf : List LogLine) : List (String × LokiStream) :=
  buf.foldl addToStreams []

/-- First two statements of `LokiLoggerHandler._send`: reset the force-send
flag and `_current_stream_size` before anything is dequeued. -/
def resetStep (st : HandlerState) : HandlerState :=
  { st with force_send := false, underscore_current_stream_size := 0 }

/-- Remainder of `LokiLoggerHandler._send`: drain the buffer into streams,
then hand the streams to the transport only when at least one was produced
(`if temp_streams:`). The `Option` result is the payload given to
`request.send`, `none` when no send happens. -/
def drainStep (st : HandlerState) : HandlerState × Option (List LokiStream) :=
  let temp_streams := drainGroup st.buffer
  ({ st with buffer := [] },
   if temp_streams.isEmpty then none else some (temp_streams.map Prod.snd))

/-- Embedding of `LokiLoggerHandler._send`, one full flush pass: reset the
indicators, then drain, group and (conditionally) send. -/
def _send (st : HandlerState) : HandlerState × Option (List LokiStream) :=
  drainStep (resetStep st)

/-- Handlers this module hands to `atexit.register`. -/
inductive AtexitHandler
  | sendHandler
  deriving DecidableEq, Repr

/-- First statement of `LokiLoggerHandler._flush` (the body of the background
flush thread): `atexit.register(self._send)` appends one registration of the
send pass to the process-wide atexit list. -/
def flushThreadStart (registered : List AtexitHandler) : List AtexitHandler :=
  registered ++ [AtexitHandler.sendHandler]

/-- Running one registered atexit handler on the handler state. -/
def runAtexitHandler : AtexitHandler → HandlerState → HandlerState × Option (List LokiStream)
  | .sendHandler, st => _send st

/-- Modelled from the spec: process shutdown runs every registered atexit
handler exactly once ("on process shutdown, an unconditional final Draining
pass is triggered regardless of buffer state"); the second component collects
the payloads actually sent. -/
def runAtexit (hs : List AtexitHandler) (st : HandlerState) :
    HandlerState × List (List LokiStream) :=
  hs.foldl
    (fun acc h =>
      let (st', p) := runAtexitHandler h acc.1
      (st', acc.2 ++ p.toList))
    (st, [])

/-- Check performed each 0.1-second tick of the waiting loop in
`LokiLoggerHandler._flush`: a send is triggered early exactly when the
force-send flag is set. -/
def flushWaitTickSends (st : HandlerState) : Bool :=
  st.force_send

/-! Helper lemmas. -/

theorem lookup_dictInsert_self (l : List (String × String)) (k v : String) :
    (dictInsert l k v).lookup k = some v := by
  induction l with
  | nil => simp [dictInsert, List.lookup]
  | cons p rest ih =>
    obtain ⟨k', v'⟩ := p
    by_cases h : k' = k
    · simp [dictInsert, h, List.lookup]
    · have hbeq : (k == k') = false := beq_eq_false_iff_ne.mpr (Ne.symm h)
      simp [dictInsert, h, List.lookup, hbeq, ih]

theorem lookup_dictInsert_ne (l : List (String × String)) (k v k' : String)
    (h : k' ≠ k) : (dictInsert l k v).lookup k' = l.lookup k' := by
  have hbeq : (k' == k) = false := beq_eq_false_iff_ne.mpr h
  induction l with
  | nil => simp [dictInsert, List.lookup, hbeq]
  | cons p rest ih =>
    obtain ⟨k'', v''⟩ := p
    by_cases hk : k'' = k
    · subst hk
      simp [dictInsert, List.lookup, hbeq, ih]
    · simp only [dictInsert, if_neg hk]
      by_cases hk' : k' = k''
      · have hb : (k' == k'') = true := beq_iff_eq.mpr hk'
        simp [List.lookup, hb]
      · have hb : (k' == k'') = false := beq_eq_false_iff_ne.mpr hk'
        simp [List.lookup, hb, ih]

theorem buildLabels_lookup (label_keys : List String)
    (base log_record : List (String × String)) (k : String) :
    (buildLabels base label_keys log_record).lookup k =
      if k ∈ label_keys ∧ (log_record.lookup k).isSome
      then log_record.lookup k else base.lookup k := by
  induction label_keys generalizing base with
  | nil => simp [buildLabels]
  | cons key rest ih =>
    have step : buildLabels base (key :: rest) log_record =
        buildLabels
          (match log_record.lookup key with
           | some v => dictInsert base key v
           | none => base) rest log_record := by
      simp [buildLabels]
    rw [step, ih]
    by_cases hmem : k ∈ rest ∧ (log_record.lookup k).isSome
    · simp [hmem, hmem.1]
    · simp only [if_neg hmem]
      by_cases hkey : k = key
      · subst hkey
        cases hrec : log_record.lookup k with
        | none => simp [hrec, hmem] at hmem ⊢
        | some v =>
          simp only [hrec]
          rw [lookup_dictInsert_self]
          simp [List.mem_cons, hrec]
      · have hnotin : ¬ (k ∈ key :: rest ∧ (log_record.lookup k).isSome) := by
          intro hc
          rcases hc with ⟨hin, hs⟩
          rcases List.mem_cons.mp hin with h1 | h2
          · exact hkey h1
          · exact hmem ⟨h2, hs⟩
        simp only [if_neg hnotin]
        cases hrec : log_record.lookup key with
        | none => rfl
        | some v => exact lookup_dictInsert_ne base key v k hkey

/-! Claim theorems. -/

/-- C3: the StreamKey of a LabelSet is the values sorted lexicographically
and joined with the fixed separator `"_"`; two LabelSets whose value
multisets coincide (whatever keys carry the values) derive equal
StreamKeys. -/
theorem key_from_labels_perm (l1 l2 : List (String × String))
    (h : (l1.map Prod.snd).Perm (l2.map Prod.snd)) :
    key_from_labels l1 = key_from_labels l2 := by
  unfold key_from_labels
  congr 1
  exact List.eq_of_perm_of_sorted
    (((List.perm_insertionSort _ _).trans h).trans (List.perm_insertionSort _ _).symm)
    (List.sorted_insertionSort _ _) (List.sorted_insertionSort _ _)

/-- Witness for C3 at a concrete pair of LabelSets with swapped values under
different keys. -/
theorem key_from_labels_perm_witness :
    (([(("a" : String), ("x" : String)), ("b", "y")].map Prod.snd).Perm
      ([(("c" : String), ("y" : String)), ("d", "x")].map Prod.snd)) ∧
    key_from_labels [("a", "x"), ("b", "y")] = key_from_labels [("c", "y"), ("d", "x")] :=
  ⟨List.Perm.swap "y" "x" [],
   key_from_labels_perm [("a", "x"), ("b", "y")] [("c", "y"), ("d", "x")]
     (List.Perm.swap "y" "x" [])⟩

/-- C10: the separator is not escaped, so the single value `"a_b"` and the
value pair `"a"`, `"b"` give the same StreamKey although the value multisets
differ — key equality does not imply value-multiset equality. -/
theorem key_from_labels_collision :
    key_from_labels [("k", "a_b")] = "a_b" ∧
    key_from_labels [("k1", "a"), ("k2", "b")] = "a_b" ∧
    ¬ (([(("k" : String), ("a_b" : String))].map Prod.snd).Perm
        ([(("k1" : String), ("a" : String)), ("k2", "b")].map Prod.snd)) := by
  have hab : (("a" : String) ≤ "b") := String.le_iff_toList_le.mpr (by decide)
  refine ⟨by decide, ?_, fun h => ?_⟩
  · unfold key_from_labels
    simp only [List.map_cons, List.map_nil, List.insertionSort, List.orderedInsert,
      if_pos hab]
    decide
  · simpa using h.length_eq

/-- C6: the LogEntry built by `_put` carries the base LabelSet overridden and
extended, key by key, with the values of the configured label keys present in
the formatted record (label keys shadow base labels); the handler's own base
LabelSet is untouched by the call. -/
theorem put_labels_override (st : HandlerState) (r : List (String × String)) :
    (_put st r).1.labels = st.labels ∧
    (_put st r).1.buffer =
      st.buffer ++ [LogLine.make (buildLabels st.labels st.label_keys r) (LineVal.dict r)] ∧
    (∀ k, (buildLabels st.labels st.label_keys r).lookup k =
      if k ∈ st.label_keys ∧ (r.lookup k).isSome
      then r.lookup k else st.labels.lookup k) := by
  refine ⟨?_, ?_, fun k => buildLabels_lookup st.label_keys st.labels r k⟩
  · unfold _put
    cases st.current_stream_size with
    | none => rfl
    | some v =>
      dsimp only
      split <;> rfl
  · unfold _put
    cases st.current_stream_size with
    | none => rfl
    | some v =>
      dsimp only
      split <;> rfl

/-- Witness for C6 at the spec's example: base labels `app ↦ x`, label key
`level`, record `level ↦ error, msg ↦ boom`. -/
theorem put_labels_override_witness :
    (_put (initState [("app", "x")] ["level"] 0) [("level", "error"), ("msg", "boom")]).1.labels
      = [("app", "x")] ∧
    buildLabels [("app", "x")] ["level"] [("level", "error"), ("msg", "boom")]
      = [("app", "x"), ("level", "error")] :=
  ⟨(put_labels_override (initState [("app", "x")] ["level"] 0)
      [("level", "error"), ("msg", "boom")]).1,
   by decide⟩

theorem foldl_addToStreams_same (lbls : List (String × String)) (lines : List LineVal) :
    ∀ vs : List LineVal,
      List.foldl addToStreams [(key_from_labels lbls, LokiStream.mk lbls vs)]
        (lines.map (LogLine.make lbls))
      = [(key_from_labels lbls, LokiStream.mk lbls (vs ++ lines))] := by
  induction lines with
  | nil => intro vs; simp
  | cons ln rest ih =>
    intro vs
    simp only [List.map_cons, List.foldl_cons]
    have step : addToStreams [(key_from_labels lbls, LokiStream.mk lbls vs)]
        (LogLine.make lbls ln)
        = [(key_from_labels lbls, LokiStream.mk lbls (vs ++ [ln]))] := by
      simp [addToStreams, LogLine.make, LokiStream.append_value]
    rw [step, ih (vs ++ [ln])]
    simp

/-- C4: when every buffered entry carries the same LabelSet, one flush pass
groups all of their payload lines into a single stream accumulator, seeded
with that LabelSet, in exactly submission (FIFO) order, and sends exactly
that stream. -/
theorem send_single_stream (st : HandlerState) (lbls : List (String × String))
    (lines : List LineVal) (hne : lines ≠ [])
    (hbuf : st.buffer = lines.map (LogLine.make lbls)) :
    drainGroup st.buffer = [(key_from_labels lbls, LokiStream.mk lbls lines)] ∧
    (_send st).2 = some [LokiStream.mk lbls lines] := by
  have hdrain : drainGroup st.buffer
      = [(key_from_labels lbls, LokiStream.mk lbls lines)] := by
    cases lines with
    | nil => exact absurd rfl hne
    | cons ln rest =>
      rw [hbuf]
      unfold drainGroup
      simp only [List.map_cons, List.foldl_cons]
      have h0 : addToStreams [] (LogLine.make lbls ln)
          = [(key_from_labels lbls, LokiStream.mk lbls [ln])] := by
        simp [addToStreams, LogLine.make, LokiStream.append_value]
      rw [h0, foldl_addToStreams_same lbls rest [ln]]
      simp
  refine ⟨hdrain, ?_⟩
  unfold _send drainStep resetStep
  simp [hdrain]

/-- Witness for C4: two entries with the same LabelSet end up as the two
lines of one stream, in order. -/
theorem send_single_stream_witness :
    ([LineVal.dict [("m", "1")], LineVal.dict [("m", "2")]] ≠ ([] : List LineVal)) ∧
    (_send { initState [] [] 0 with
        buffer := [LineVal.dict [("m", "1")], LineVal.dict [("m", "2")]].map
          (LogLine.make [("app", "x")]) }).2
      = some [LokiStream.mk [("app", "x")]
          [LineVal.dict [("m", "1")], LineVal.dict [("m", "2")]]] :=
  ⟨by decide,
   (send_single_stream _ [("app", "x")]
      [LineVal.dict [("m", "1")], LineVal.dict [("m", "2")]] (by decide) rfl).2⟩

/-- C5: a flush pass over an empty buffer produces zero stream accumulators
and performs no send; conversely a send only happens when at least one
accumulator was produced. -/
theorem empty_buffer_no_send (st : HandlerState) :
    (st.buffer = [] → drainGroup st.buffer = [] ∧ (_send st).2 = none) ∧
    (∀ p, (_send st).2 = some p → drainGroup st.buffer ≠ []) := by
  constructor
  · intro h
    refine ⟨by rw [h]; rfl, ?_⟩
    unfold _send drainStep resetStep
    simp [drainGroup, h]
  · intro p hp hne
    unfold _send drainStep resetStep at hp
    simp [hne] at hp

/-- Witness for C5 at the freshly initialised (empty-buffer) handler. -/
theorem empty_buffer_no_send_witness :
    drainGroup (initState [] [] 0).buffer = [] ∧ (_send (initState [] [] 0)).2 = none :=
  (empty_buffer_no_send (initState [] [] 0)).1 rfl

/-- C7: every flush pass starts by clearing the force-send flag and the
running byte counter — the reset step touches no buffered entry, the whole
pass is exactly drain-after-reset, and both indicators are still cleared
when the pass finishes. -/
theorem send_resets_counters (st : HandlerState) :
    (resetStep st).force_send = false ∧
    (resetStep st).underscore_current_stream_size = 0 ∧
    (resetStep st).buffer = st.buffer ∧
    _send st = drainStep (resetStep st) ∧
    (_send st).1.force_send = false ∧
    (_send st).1.underscore_current_stream_size = 0 :=
  ⟨rfl, rfl, rfl, rfl, rfl, rfl⟩

/-- C8: `emit` never propagates an exception to the logging call site,
whatever the formatter does — its error component is always `none`, and the
resulting state is the untouched state on a formatter failure, the `_put`
state otherwise. -/
theorem emit_never_raises (st : HandlerState)
    (formatted : Except PyError (List (String × String))) :
    (emit st formatted).2 = none ∧
    (emit st formatted).1 =
      (match formatted with
       | .error _ => st
       | .ok log_record => (_put st log_record).1) := by
  cases formatted with
  | error e => exact ⟨rfl, rfl⟩
  | ok log_record => exact ⟨rfl, rfl⟩

theorem addToStreams_ne_nil (acc : List (String × LokiStream)) (log : LogLine) :
    addToStreams acc log ≠ [] := by
  cases acc with
  | nil => simp [addToStreams]
  | cons p rest =>
    obtain ⟨k, s⟩ := p
    unfold addToStreams
    split <;> simp

theorem foldl_addToStreams_ne_nil (bs : List LogLine) :
    ∀ acc, acc ≠ [] → List.foldl addToStreams acc bs ≠ [] := by
  induction bs with
  | nil => intro acc h; simpa
  | cons b rest ih =>
    intro acc _
    simp only [List.foldl_cons]
    exact ih _ (addToStreams_ne_nil acc b)

theorem drainGroup_ne_nil (buf : List LogLine) (h : buf ≠ []) :
    drainGroup buf ≠ [] := by
  cases buf with
  | nil => exact absurd rfl h
  | cons b rest =>
    unfold drainGroup
    simp only [List.foldl_cons]
    exact foldl_addToStreams_ne_nil rest _ (addToStreams_ne_nil [] b)

/-- C9: starting the flush thread registers exactly one shutdown hook, the
shutdown run performs exactly that one unconditional `_send` pass whatever
the buffer state, and entries still buffered at exit are sent. -/
theorem shutdown_final_flush (st : HandlerState) :
    (flushThreadStart []).length = 1 ∧
    runAtexit (flushThreadStart []) st = ((_send st).1, (_send st).2.toList) ∧
    (st.buffer ≠ [] → (runAtexit (flushThreadStart []) st).2 ≠ []) := by
  have hrun : runAtexit (flushThreadStart []) st = ((_send st).1, (_send st).2.toList) := by
    unfold runAtexit flushThreadStart runAtexitHandler
    cases hsend : _send st with
    | mk st' p => simp [hsend]
  have hsome : st.buffer ≠ [] → (_send st).2.toList ≠ [] := by
    intro h
    have hd := drainGroup_ne_nil st.buffer h
    unfold _send drainStep resetStep
    simp [hd, List.isEmpty_iff]
  refine ⟨rfl, hrun, fun h => ?_⟩
  rw [hrun]
  exact hsome h

/-- Witness for C9: a handler whose buffer holds one entry at exit has that
entry sent by the single registered shutdown flush. -/
theorem shutdown_final_flush_witness :
    ({ initState [] [] 0 with
        buffer := [LogLine.make [] (LineVal.str "x")] } : HandlerState).buffer ≠ [] ∧
    (runAtexit (flushThreadStart [])
      { initState [] [] 0 with buffer := [LogLine.make [] (LineVal.str "x")] }).2 ≠ [] :=
  ⟨by decide,
   (shutdown_final_flush
      { initState [] [] 0 with buffer := [LogLine.make [] (LineVal.str "x")] }).2.2
     (by decide)⟩

/-- C1 (code bug): with a configured threshold `max_stream_size = 1` and an
entry whose byte size reaches it, `_put` raises `AttributeError` at the
misspelled `self.current_stream_size += log_size` — after the push but before
any threshold bookkeeping — so the running total `_current_stream_size` stays
0, the force-send flag is never set, and the flush loop's early-send check
never fires. -/
theorem size_threshold_never_triggers :
    (LogLine.make
        (buildLabels (initState [] [] 1).labels (initState [] [] 1).label_keys
          [("msg", "hello")])
        (LineVal.dict [("msg", "hello")])).size ≥ (initState [] [] 1).max_stream_size ∧
    (_put (initState [] [] 1) [("msg", "hello")]).2 = some PyError.attributeError ∧
    (_put (initState [] [] 1) [("msg", "hello")]).1.underscore_current_stream_size = 0 ∧
    (_put (initState [] [] 1) [("msg", "hello")]).1.force_send = false ∧
    flushWaitTickSends (_put (initState [] [] 1) [("msg", "hello")]).1 = false := by
  decide

/-- C2 (code bug): the producer path fails on this record (the size-counting
statement raises `AttributeError`), yet the record is not dropped — it sits
in the buffer and the next flush pass delivers it; by contrast a formatter
failure does leave the state untouched. -/
theorem failed_producer_path_still_delivers :
    (_put (initState [] [] 0) [("msg", "x")]).2 = some PyError.attributeError ∧
    (_put (initState [] [] 0) [("msg", "x")]).1.buffer
      = [LogLine.make [] (LineVal.dict [("msg", "x")])] ∧
    (_send ((_put (initState [] [] 0) [("msg", "x")]).1)).2
      = some [LokiStream.mk [] [LineVal.dict [("msg", "x")]]] ∧
    (emit (initState [] [] 0) (Except.error PyError.formatError)).1 = initState [] [] 0 := by
  decide
